import Mathlib

/-!
Verification of the client-side state store of the Flowly finance tracker
(`src/store.ts`, `src/db.ts`).

Monetary amounts and weights are JavaScript numbers in the source; they are
embedded as rationals (`ℚ`), which model the exact arithmetic the spec's
"exact sum" language refers to.  Timestamps parsed by `new Date(s).getTime()`
are embedded through an abstract parsing function `String → Int` passed to
the mappers.  Each asynchronous store action is embedded as a pure state
transformer taking the outcome of its remote calls (the supabase client) as
explicit oracle arguments; an action that never throws is embedded as a
total function.
-/

namespace Flowly

/-- Transaction type enumeration from `src/db.ts` (`TransactionType`). -/
inductive TransactionType where
  | Purchase
  | Sale
  | Expense
  | Transfer
  | Adjustment
deriving DecidableEq, BEq, Repr

/-- Local account model from `src/db.ts` (`Account`); `created_at` is a JS
timestamp in milliseconds. -/
structure Account where
  id : String
  user_id : String
  name : String
  type : String
  current_balance : ℚ
  created_at : Int
deriving DecidableEq, Repr

/-- Local transaction model from `src/db.ts` (`Transaction`); optional fields
are `Option` (JS `undefined` is `none`). -/
structure Transaction where
  id : Int
  timestamp : Int
  type : TransactionType
  amount : ℚ
  weightChange : ℚ
  notes : Option String
  account_id : String
  category : Option String
  user_id : String
  created_at : Int
  related_transaction_id : Option Int
deriving DecidableEq, Repr

/-- Wire-format account row (`Database` row for `accounts`): timestamps are
ISO-8601 strings. -/
structure AccountRow where
  id : String
  user_id : String
  name : String
  type : String
  current_balance : ℚ
  created_at : String
deriving DecidableEq, Repr

/-- Wire-format transaction row (`Database` row for `transactions`):
timestamps are ISO-8601 strings, optional columns are nullable (`Option`,
with `none` for SQL `null`).  The `type` column is trusted to hold one of the
enumeration values (the source casts it with `as TransactionType` without
validation). -/
structure TransactionRow where
  id : Int
  user_id : String
  account_id : String
  type : TransactionType
  amount : ℚ
  weight_change : ℚ
  notes : Option String
  category : Option String
  timestamp : String
  created_at : String
  related_transaction_id : Option Int
deriving DecidableEq, Repr

/-- Opaque authenticated user (supabase `User`); only the identity matters to
the store. -/
structure User where
  id : String
deriving DecidableEq, Repr

/-- Opaque session (supabase `Session`); always carries its user. -/
structure Session where
  user : User
deriving DecidableEq, Repr

/-- JavaScript `x || undefined` on a nullable string: `null`, `undefined` and
the empty string are falsy and collapse to `undefined`. -/
def jsOrUndefinedStr (x : Option String) : Option String :=
  match x with
  | none => none
  | some s => if s = "" then none else some s

/-- JavaScript `x || undefined` on a nullable number: `null`, `undefined` and
`0` are falsy and collapse to `undefined`. -/
def jsOrUndefinedInt (x : Option Int) : Option Int :=
  match x with
  | none => none
  | some n => if n = 0 then none else some n

/-- Embedding of `mapAccount` from `src/store.ts`: spread the row and replace `created_at`
by `new Date(account.created_at).getTime()`, embedded through the abstract
ISO parser `parse`. -/
def mapAccount (parse : String → Int) (account : AccountRow) : Account :=
  { id := account.id
    user_id := account.user_id
    name := account.name
    type := account.type
    current_balance := account.current_balance
    created_at := parse account.created_at }

/-- Embedding of `mapTransaction` from `src/store.ts`: timestamps go through
`new Date(·).getTime()` (the abstract `parse`), and the optional columns go
through JavaScript `|| undefined`. -/
def mapTransaction (parse : String → Int) (transaction : TransactionRow) : Transaction :=
  { id := transaction.id
    timestamp := parse transaction.timestamp
    type := transaction.type
    amount := transaction.amount
    weightChange := transaction.weight_change
    notes := jsOrUndefinedStr transaction.notes
    account_id := transaction.account_id
    category := jsOrUndefinedStr transaction.category
    user_id := transaction.user_id
    created_at := parse transaction.created_at
    related_transaction_id := jsOrUndefinedInt transaction.related_transaction_id }

/-- The store's state (`AppState` in `src/store.ts`). -/
structure AppState where
  session : Option Session
  user : Option User
  isSessionLoading : Bool
  accounts : List Account
  transactions : List Transaction
  isLoading : Bool
  overallNetCash : ℚ
  weightOnHand : ℚ
  dollarPerGramRatio : Option ℚ
deriving DecidableEq, Repr

/-- The store's initial state. -/
def initialState : AppState :=
  { session := none
    user := none
    isSessionLoading := true
    accounts := []
    transactions := []
    isLoading := false
    overallNetCash := 0
    weightOnHand := 0
    dollarPerGramRatio := none }

/-- Embedding of `recalculateSummaries` from `src/store.ts`: three `reduce`s and a
`filter` over the current in-memory collections, with `null` (here `none`)
when the sales-weight denominator is not positive. -/
def recalculateSummaries (s : AppState) : AppState :=
  let overallNetCash : ℚ := s.accounts.foldl (fun sum acc => sum + acc.current_balance) 0
  let weightOnHand : ℚ := s.transactions.foldl (fun sum tx => sum + tx.weightChange) 0
  let sales := s.transactions.filter (fun tx => tx.type == TransactionType.Sale)
  let totalSalesAmount : ℚ := sales.foldl (fun sum tx => sum + tx.amount) 0
  let totalSalesWeight : ℚ := sales.foldl (fun sum tx => sum + |tx.weightChange|) 0
  let dollarPerGramRatio :=
    if totalSalesWeight > 0 then some (totalSalesAmount / totalSalesWeight) else none
  { s with
      overallNetCash := overallNetCash
      weightOnHand := weightOnHand
      dollarPerGramRatio := dollarPerGramRatio }

/-- Outcome of a supabase `select`: either an error, or a nullable array of
rows (`data` may be `null`, hence the `Option`). -/
inductive SelectResult (ρ : Type) where
  | err : SelectResult ρ
  | ok : Option (List ρ) → SelectResult ρ
deriving DecidableEq, Repr

/-- Outcome of a supabase single-row mutation (`insert`/`update`/`delete`) or
of `auth.signOut`: error or success. -/
inductive MutationResult where
  | err
  | ok
deriving DecidableEq, Repr

/-- Outcome of `auth.getSession`: error, or a nullable session. -/
inductive SessionResult where
  | err
  | ok : Option Session → SessionResult
deriving DecidableEq, Repr

/-- Embedding of `fetchAccounts` from `src/store.ts`.  No-op without a user; otherwise
sets the loading flag, and on success replaces `accounts` wholesale with the
mapped rows (`data?.map(mapAccount) || []`) and recalculates the summaries,
while on error resets `accounts` to empty; the `finally` clears the loading
flag on every path. -/
def fetchAccounts (parse : String → Int) (s : AppState)
    (r : SelectResult AccountRow) : AppState :=
  match s.user with
  | none => s
  | some _ =>
    let s1 : AppState := { s with isLoading := true }
    match r with
    | SelectResult.err =>
        let s2 : AppState := { s1 with accounts := [] }
        { s2 with isLoading := false }
    | SelectResult.ok data =>
        let accounts := (data.map (fun rows => rows.map (mapAccount parse))).getD []
        let s2 : AppState := { s1 with accounts := accounts }
        let s3 := recalculateSummaries s2
        { s3 with isLoading := false }

/-- Embedding of `fetchTransactions` from `src/store.ts`, the exact analogue of
`fetchAccounts` for the `transactions` collection. -/
def fetchTransactions (parse : String → Int) (s : AppState)
    (r : SelectResult TransactionRow) : AppState :=
  match s.user with
  | none => s
  | some _ =>
    let s1 : AppState := { s with isLoading := true }
    match r with
    | SelectResult.err =>
        let s2 : AppState := { s1 with transactions := [] }
        { s2 with isLoading := false }
    | SelectResult.ok data =>
        let transactions := (data.map (fun rows => rows.map (mapTransaction parse))).getD []
        let s2 : AppState := { s1 with transactions := transactions }
        let s3 := recalculateSummaries s2
        { s3 with isLoading := false }

/-- Embedding of `addTransaction` from `src/store.ts`: returns `false` without touching
state when no user is present; otherwise inserts remotely and, on success,
re-fetches both collections (`Promise.all`, embedded as sequential
composition of the two independent fetches) and returns `true`; on insert
failure returns `false` with no collection change.  The `finally` clears the
loading flag. -/
def addTransaction (parse : String → Int) (s : AppState) (ins : MutationResult)
    (ra : SelectResult AccountRow) (rt : SelectResult TransactionRow) :
    AppState × Bool :=
  match s.user with
  | none => (s, false)
  | some _ =>
    let s1 : AppState := { s with isLoading := true }
    match ins with
    | MutationResult.err => ({ s1 with isLoading := false }, false)
    | MutationResult.ok =>
        let s2 := fetchAccounts parse s1 ra
        let s3 := fetchTransactions parse s2 rt
        ({ s3 with isLoading := false }, true)

/-- Embedding of `updateTransaction` from `src/store.ts`: same shape as `addTransaction`
but without any authenticated-user precondition. -/
def updateTransaction (parse : String → Int) (s : AppState) (upd : MutationResult)
    (ra : SelectResult AccountRow) (rt : SelectResult TransactionRow) :
    AppState × Bool :=
  let s1 : AppState := { s with isLoading := true }
  match upd with
  | MutationResult.err => ({ s1 with isLoading := false }, false)
  | MutationResult.ok =>
      let s2 := fetchAccounts parse s1 ra
      let s3 := fetchTransactions parse s2 rt
      ({ s3 with isLoading := false }, true)

/-- Embedding of `deleteTransaction` from `src/store.ts`: same shape as
`updateTransaction` (no authenticated-user precondition). -/
def deleteTransaction (parse : String → Int) (s : AppState) (del : MutationResult)
    (ra : SelectResult AccountRow) (rt : SelectResult TransactionRow) :
    AppState × Bool :=
  let s1 : AppState := { s with isLoading := true }
  match del with
  | MutationResult.err => ({ s1 with isLoading := false }, false)
  | MutationResult.ok =>
      let s2 := fetchAccounts parse s1 ra
      let s3 := fetchTransactions parse s2 rt
      ({ s3 with isLoading := false }, true)

/-- Embedding of `signOut` from `src/store.ts`: on success clears session, user and both
collections (without recalculating the summaries); on failure the state is
unchanged. -/
def signOut (s : AppState) (r : MutationResult) : AppState :=
  match r with
  | MutationResult.err => s
  | MutationResult.ok =>
      { s with session := none, user := none, accounts := [], transactions := [] }

/-- Embedding of `checkSession` from `src/store.ts`: sets the session-loading flag, reads
the session; on error only the `finally` runs; with a session it stores it
and fetches both collections; without one it clears both collections.  Total
by construction: the `catch` swallows every failure. -/
def checkSession (parse : String → Int) (s : AppState) (r : SessionResult)
    (ra : SelectResult AccountRow) (rt : SelectResult TransactionRow) : AppState :=
  let s1 : AppState := { s with isSessionLoading := true }
  match r with
  | SessionResult.err => { s1 with isSessionLoading := false }
  | SessionResult.ok sess =>
      let s2 : AppState := { s1 with session := sess, user := sess.map Session.user }
      match sess.map Session.user with
      | some _ =>
          let s3 := fetchAccounts parse s2 ra
          let s4 := fetchTransactions parse s3 rt
          { s4 with isSessionLoading := false }
      | none =>
          let s3 : AppState := { s2 with accounts := [], transactions := [] }
          { s3 with isSessionLoading := false }

/-- The summaries a wholesale recomputation would produce agree with the ones
stored in `s`: the consistency invariant of spec §3. -/
def summariesConsistent (s : AppState) : Prop :=
  s.overallNetCash = (recalculateSummaries s).overallNetCash ∧
  s.weightOnHand = (recalculateSummaries s).weightOnHand ∧
  s.dollarPerGramRatio = (recalculateSummaries s).dollarPerGramRatio

instance (s : AppState) : Decidable (summariesConsistent s) := by
  unfold summariesConsistent; infer_instance

/-- The sales sub-list selected by `recalculateSummaries`. -/
def salesOf (ts : List Transaction) : List Transaction :=
  ts.filter (fun tx => tx.type == TransactionType.Sale)

/-- Total absolute sales weight (the ratio's denominator). -/
def totalSalesWeightOf (ts : List Transaction) : ℚ :=
  ((salesOf ts).map (fun tx => |tx.weightChange|)).sum

/-- Total sales amount (the ratio's numerator). -/
def totalSalesAmountOf (ts : List Transaction) : ℚ :=
  ((salesOf ts).map Transaction.amount).sum

/-! ### Sample data used by the concrete witnesses -/

def sampleUser : User := { id := "u1" }

def acctBank : Account :=
  { id := "a1", user_id := "u1", name := "Bank", type := "Bank",
    current_balance := 100, created_at := 0 }

def acctCash : Account :=
  { id := "a2", user_id := "u1", name := "Cash", type := "Cash",
    current_balance := -(51 / 2 : ℚ), created_at := 0 }

def txSale : Transaction :=
  { id := 1, timestamp := 0, type := TransactionType.Sale, amount := 50,
    weightChange := -5, notes := none, account_id := "a1", category := none,
    user_id := "u1", created_at := 0, related_transaction_id := none }

def txPurchase : Transaction :=
  { id := 2, timestamp := 0, type := TransactionType.Purchase, amount := -20,
    weightChange := 10, notes := none, account_id := "a1", category := none,
    user_id := "u1", created_at := 0, related_transaction_id := none }

def sampleState : AppState :=
  { initialState with
      user := some sampleUser
      accounts := [acctBank, acctCash]
      transactions := [txSale, txPurchase] }

def sampleAcctRow : AccountRow :=
  { id := "a1", user_id := "u1", name := "Bank", type := "Bank",
    current_balance := 100, created_at := "2024-01-01T00:00:00Z" }

def sampleTxRow : TransactionRow :=
  { id := 1, user_id := "u1", account_id := "a1", type := TransactionType.Sale,
    amount := 50, weight_change := -5, notes := none, category := none,
    timestamp := "2024-01-02T03:04:05Z", created_at := "2024-01-02T03:04:05Z",
    related_transaction_id := none }

/-- A wire row whose optional columns hold falsy but non-null values. -/
def sampleFalsyRow : TransactionRow :=
  { sampleTxRow with notes := some "", category := some "", related_transaction_id := some 0 }

/-- A fixed stand-in for the ISO-8601 millisecond parser. -/
def sampleParse : String → Int := fun _ => 0

/-! ### Arithmetic helper lemmas -/

/-- The left fold the source's `reduce` compiles to is the sum of the mapped
list, shifted by the accumulator. -/
lemma foldl_add_map {α : Type} (f : α → ℚ) (init : ℚ) (l : List α) :
    l.foldl (fun sum x => sum + f x) init = init + (l.map f).sum := by
  induction l generalizing init with
  | nil => simp
  | cons a t ih => simp only [List.foldl_cons, List.map_cons, List.sum_cons, ih]; ring

lemma recalc_overallNetCash (s : AppState) :
    (recalculateSummaries s).overallNetCash = (s.accounts.map Account.current_balance).sum := by
  simp [recalculateSummaries, foldl_add_map]

lemma recalc_weightOnHand (s : AppState) :
    (recalculateSummaries s).weightOnHand = (s.transactions.map Transaction.weightChange).sum := by
  simp [recalculateSummaries, foldl_add_map]

lemma recalc_ratio (s : AppState) :
    (recalculateSummaries s).dollarPerGramRatio =
      if totalSalesWeightOf s.transactions > 0 then
        some (totalSalesAmountOf s.transactions / totalSalesWeightOf s.transactions)
      else none := by
  simp [recalculateSummaries, foldl_add_map, totalSalesWeightOf, totalSalesAmountOf, salesOf]

lemma totalSalesWeight_nonneg (ts : List Transaction) : 0 ≤ totalSalesWeightOf ts := by
  apply List.sum_nonneg
  intro x hx
  obtain ⟨tx, _, rfl⟩ := List.mem_map.mp hx
  exact abs_nonneg _

/-! ### Summary-consistency helper lemmas -/

/-- Restatement of `summariesConsistent` in terms of the three closed-form aggregates. -/
lemma summariesConsistent_iff (s : AppState) :
    summariesConsistent s ↔
      s.overallNetCash = (s.accounts.map Account.current_balance).sum ∧
      s.weightOnHand = (s.transactions.map Transaction.weightChange).sum ∧
      s.dollarPerGramRatio =
        (if totalSalesWeightOf s.transactions > 0 then
          some (totalSalesAmountOf s.transactions / totalSalesWeightOf s.transactions)
        else none) := by
  unfold summariesConsistent
  rw [recalc_overallNetCash, recalc_weightOnHand, recalc_ratio]

/-- A wholesale recomputation always leaves the state consistent. -/
lemma summariesConsistent_recalc (s : AppState) :
    summariesConsistent (recalculateSummaries s) := by
  rw [summariesConsistent_iff]
  exact ⟨recalc_overallNetCash s, recalc_weightOnHand s, recalc_ratio s⟩

lemma fetchAccounts_user (parse : String → Int) (s : AppState)
    (r : SelectResult AccountRow) : (fetchAccounts parse s r).user = s.user := by
  unfold fetchAccounts
  cases hs : s.user with
  | none => exact hs
  | some u => cases r with
    | err => rfl
    | ok data => rfl

lemma fetchTransactions_user (parse : String → Int) (s : AppState)
    (r : SelectResult TransactionRow) : (fetchTransactions parse s r).user = s.user := by
  unfold fetchTransactions
  cases hs : s.user with
  | none => exact hs
  | some u => cases r with
    | err => rfl
    | ok data => rfl

/-- A successful `fetchAccounts` always ends in a consistent state. -/
lemma fetchAccounts_ok_consistent (parse : String → Int) (s : AppState) (u : User)
    (hu : s.user = some u) (data : Option (List AccountRow)) :
    summariesConsistent (fetchAccounts parse s (SelectResult.ok data)) := by
  unfold fetchAccounts
  rw [hu]
  exact summariesConsistent_recalc _

/-- A successful `fetchTransactions` always ends in a consistent state. -/
lemma fetchTransactions_ok_consistent (parse : String → Int) (s : AppState) (u : User)
    (hu : s.user = some u) (data : Option (List TransactionRow)) :
    summariesConsistent (fetchTransactions parse s (SelectResult.ok data)) := by
  unfold fetchTransactions
  rw [hu]
  exact summariesConsistent_recalc _

/-! ### Claim theorems -/

/-- C1: for every state (so in particular every non-empty account
collection), after `recalculateSummaries` runs, `overallNetCash` is the
exact sum of `current_balance` over the in-memory accounts, and permuting
the accounts does not change it. -/
theorem overallNetCash_eq_sum (s : AppState) :
    (recalculateSummaries s).overallNetCash =
      (s.accounts.map Account.current_balance).sum ∧
    ∀ l : List Account, s.accounts.Perm l →
      (recalculateSummaries { s with accounts := l }).overallNetCash =
        (recalculateSummaries s).overallNetCash := by
  refine ⟨recalc_overallNetCash s, fun l hl => ?_⟩
  rw [recalc_overallNetCash, recalc_overallNetCash]
  exact (List.Perm.sum_eq (hl.map Account.current_balance)).symm

/-- Witness for C1 at a concrete two-account state and a concrete
permutation. -/
theorem overallNetCash_eq_sum_witness :
    (recalculateSummaries sampleState).overallNetCash =
      (sampleState.accounts.map Account.current_balance).sum ∧
    sampleState.accounts.Perm [acctCash, acctBank] ∧
    (recalculateSummaries { sampleState with accounts := [acctCash, acctBank] }).overallNetCash =
      (recalculateSummaries sampleState).overallNetCash :=
  ⟨(overallNetCash_eq_sum sampleState).1,
   List.Perm.swap acctCash acctBank [],
   (overallNetCash_eq_sum sampleState).2 [acctCash, acctBank]
     (List.Perm.swap acctCash acctBank [])⟩

/-- C2: after `recalculateSummaries` runs, `weightOnHand` is the exact sum
of `weightChange` over the in-memory transactions (the sum over `ℚ` includes
negative values). -/
theorem weightOnHand_eq_sum (s : AppState) :
    (recalculateSummaries s).weightOnHand =
      (s.transactions.map Transaction.weightChange).sum :=
  recalc_weightOnHand s

/-- C3: after `recalculateSummaries` runs, the ratio is the `none` sentinel
iff the total absolute Sale weight is zero, and otherwise it is the quotient
of total Sale amount by total absolute Sale weight; `recalculateSummaries`
is total, so no division error can occur. -/
theorem dollarPerGramRatio_spec (s : AppState) :
    ((recalculateSummaries s).dollarPerGramRatio = none ↔
      totalSalesWeightOf s.transactions = 0) ∧
    (totalSalesWeightOf s.transactions ≠ 0 →
      (recalculateSummaries s).dollarPerGramRatio =
        some (totalSalesAmountOf s.transactions / totalSalesWeightOf s.transactions)) := by
  have hnn := totalSalesWeight_nonneg s.transactions
  rw [recalc_ratio]
  constructor
  · constructor
    · intro h
      by_contra hne
      have hpos : totalSalesWeightOf s.transactions > 0 := lt_of_le_of_ne hnn (Ne.symm hne)
      simp [hpos] at h
    · intro h
      simp [h]
  · intro h
    have hpos : totalSalesWeightOf s.transactions > 0 := lt_of_le_of_ne hnn (Ne.symm h)
    simp [hpos]

/-- Witness for C3 at a concrete state with one Sale of weight 5. -/
theorem dollarPerGramRatio_spec_witness :
    totalSalesWeightOf sampleState.transactions ≠ 0 ∧
    (recalculateSummaries sampleState).dollarPerGramRatio =
      some (totalSalesAmountOf sampleState.transactions /
        totalSalesWeightOf sampleState.transactions) :=
  have h : totalSalesWeightOf sampleState.transactions ≠ 0 := by
    simp only [totalSalesWeightOf, salesOf, sampleState, initialState, txSale, txPurchase,
      List.filter, show (TransactionType.Sale == TransactionType.Sale) = true from rfl,
      show (TransactionType.Purchase == TransactionType.Sale) = false from rfl,
      List.map_cons, List.map_nil, List.sum_cons, List.sum_nil]
    norm_num
  ⟨h, (dollarPerGramRatio_spec sampleState).2 h⟩

/-- A successful wholesale re-fetch of both collections (the `Promise.all`
issued after each successful transaction mutation) ends consistent. -/
lemma refetch_both_consistent (parse : String → Int) (s : AppState) (u : User)
    (hu : s.user = some u) (dataA : Option (List AccountRow))
    (dataT : Option (List TransactionRow)) :
    summariesConsistent
      (fetchTransactions parse (fetchAccounts parse s (SelectResult.ok dataA))
        (SelectResult.ok dataT)) := by
  refine fetchTransactions_ok_consistent parse _ u ?_ dataT
  rw [fetchAccounts_user]
  exact hu

/-- C4 counterexample: a successful `signOut` — a successful state-changing
operation of the store — clears both collections while keeping the old
summary numbers, so its completion state fails the wholesale-recomputation
invariant. -/
theorem signOut_breaks_consistency :
    summariesConsistent (recalculateSummaries sampleState) ∧
    ¬ summariesConsistent (signOut (recalculateSummaries sampleState) MutationResult.ok) := by
  refine ⟨summariesConsistent_recalc sampleState, ?_⟩
  rw [summariesConsistent_iff]
  intro h
  have h1 := h.1
  have e1 : (signOut (recalculateSummaries sampleState) MutationResult.ok).overallNetCash
      = (recalculateSummaries sampleState).overallNetCash := rfl
  have e2 : (recalculateSummaries sampleState).overallNetCash = (149 / 2 : ℚ) := by
    rw [recalc_overallNetCash]
    show ([acctBank, acctCash].map Account.current_balance).sum = (149 / 2 : ℚ)
    simp only [List.map_cons, List.map_nil, List.sum_cons, List.sum_nil, acctBank, acctCash]
    norm_num
  have e3 : ((signOut (recalculateSummaries sampleState) MutationResult.ok).accounts.map
      Account.current_balance).sum = 0 := rfl
  rw [e1, e2, e3] at h1
  norm_num at h1

/-- C4 (amended): after every successful `fetchAccounts` or
`fetchTransactions`, and after every transaction mutation whose remote call
and both re-fetches succeed, the three summaries equal the wholesale
recomputation over the entire current in-memory collections and are never
incrementally patched; but `signOut` (and a `checkSession` that finds no
user) clear the collections without recalculating, so their completion
states keep the stale summaries until the auth-state listener recalculates. -/
theorem summaries_consistent_after_success (parse : String → Int) (s : AppState)
    (u : User) (hu : s.user = some u) (dataA : Option (List AccountRow))
    (dataT : Option (List TransactionRow)) :
    summariesConsistent (fetchAccounts parse s (SelectResult.ok dataA)) ∧
    summariesConsistent (fetchTransactions parse s (SelectResult.ok dataT)) ∧
    summariesConsistent
      (addTransaction parse s MutationResult.ok (SelectResult.ok dataA)
        (SelectResult.ok dataT)).1 ∧
    summariesConsistent
      (updateTransaction parse s MutationResult.ok (SelectResult.ok dataA)
        (SelectResult.ok dataT)).1 ∧
    summariesConsistent
      (deleteTransaction parse s MutationResult.ok (SelectResult.ok dataA)
        (SelectResult.ok dataT)).1 := by
  refine ⟨fetchAccounts_ok_consistent parse s u hu dataA,
    fetchTransactions_ok_consistent parse s u hu dataT, ?_, ?_, ?_⟩
  · unfold addTransaction
    rw [hu]
    exact refetch_both_consistent parse { s with user := some u, isLoading := true } u rfl
      dataA dataT
  · unfold updateTransaction
    exact refetch_both_consistent parse { s with isLoading := true } u hu dataA dataT
  · unfold deleteTransaction
    exact refetch_both_consistent parse { s with isLoading := true } u hu dataA dataT

/-- Witness for the amended C4 at a concrete state and concrete remote
payloads. -/
theorem summaries_consistent_after_success_witness :
    sampleState.user = some sampleUser ∧
    summariesConsistent
      (fetchAccounts sampleParse sampleState (SelectResult.ok (some [sampleAcctRow]))) ∧
    summariesConsistent
      (addTransaction sampleParse sampleState MutationResult.ok
        (SelectResult.ok (some [sampleAcctRow]))
        (SelectResult.ok (some [sampleTxRow]))).1 :=
  ⟨rfl,
   (summaries_consistent_after_success sampleParse sampleState sampleUser rfl
     (some [sampleAcctRow]) (some [sampleTxRow])).1,
   (summaries_consistent_after_success sampleParse sampleState sampleUser rfl
     (some [sampleAcctRow]) (some [sampleTxRow])).2.2.1⟩

/-- C5: with an authenticated user, a failed remote insert makes
`addTransaction` return `false` and leaves both in-memory collections
exactly as they were — no optimistic mutation happened, so no rollback was
needed. -/
theorem addTransaction_failure_noop (parse : String → Int) (s : AppState) (u : User)
    (hu : s.user = some u) (ra : SelectResult AccountRow)
    (rt : SelectResult TransactionRow) :
    (addTransaction parse s MutationResult.err ra rt).2 = false ∧
    (addTransaction parse s MutationResult.err ra rt).1.transactions = s.transactions ∧
    (addTransaction parse s MutationResult.err ra rt).1.accounts = s.accounts := by
  unfold addTransaction
  rw [hu]
  exact ⟨rfl, rfl, rfl⟩

/-- Witness for C5 at a concrete authenticated state. -/
theorem addTransaction_failure_noop_witness :
    sampleState.user = some sampleUser ∧
    (addTransaction sampleParse sampleState MutationResult.err SelectResult.err
      SelectResult.err).2 = false ∧
    (addTransaction sampleParse sampleState MutationResult.err SelectResult.err
      SelectResult.err).1.transactions = sampleState.transactions :=
  ⟨rfl,
   (addTransaction_failure_noop sampleParse sampleState sampleUser rfl
     SelectResult.err SelectResult.err).1,
   (addTransaction_failure_noop sampleParse sampleState sampleUser rfl
     SelectResult.err SelectResult.err).2.1⟩

/-- C6: with an authenticated user, a failed remote select resets the
corresponding collection to empty — previously loaded data is destroyed —
and the loading flag is false when the action completes. -/
theorem fetch_failure_empties (parse : String → Int) (s : AppState) (u : User)
    (hu : s.user = some u) :
    (fetchAccounts parse s SelectResult.err).accounts = [] ∧
    (fetchAccounts parse s SelectResult.err).isLoading = false ∧
    (fetchTransactions parse s SelectResult.err).transactions = [] ∧
    (fetchTransactions parse s SelectResult.err).isLoading = false := by
  unfold fetchAccounts fetchTransactions
  rw [hu]
  exact ⟨rfl, rfl, rfl, rfl⟩

/-- Witness for C6 at a concrete state that had non-empty data loaded. -/
theorem fetch_failure_empties_witness :
    sampleState.user = some sampleUser ∧
    sampleState.accounts ≠ [] ∧
    (fetchAccounts sampleParse sampleState SelectResult.err).accounts = [] ∧
    (fetchTransactions sampleParse sampleState SelectResult.err).transactions = [] :=
  ⟨rfl, by simp [sampleState, initialState],
   (fetch_failure_empties sampleParse sampleState sampleUser rfl).1,
   (fetch_failure_empties sampleParse sampleState sampleUser rfl).2.2.1⟩

/-- C7: when the auth service reports no session, `checkSession` empties
both collections and ends with the session-loading flag false; on a
`getSession` failure it leaves the session field untouched (null in the
startup state it runs from) and still clears the flag; it is a total
function, so it never throws to its caller. -/
theorem checkSession_spec (parse : String → Int) (s : AppState)
    (ra : SelectResult AccountRow) (rt : SelectResult TransactionRow) :
    (checkSession parse s (SessionResult.ok none) ra rt).accounts = [] ∧
    (checkSession parse s (SessionResult.ok none) ra rt).transactions = [] ∧
    (checkSession parse s (SessionResult.ok none) ra rt).isSessionLoading = false ∧
    (checkSession parse s (SessionResult.ok none) ra rt).session = none ∧
    (checkSession parse s SessionResult.err ra rt).isSessionLoading = false ∧
    (checkSession parse s SessionResult.err ra rt).session = s.session :=
  ⟨rfl, rfl, rfl, rfl, rfl, rfl⟩

/-- C8: mapping a wire row to the local model and reading back a timestamp
field yields exactly the parse of the original ISO-8601 string as integer
milliseconds since epoch, and null optional columns become absent. -/
theorem map_roundtrip (parse : String → Int) (a : AccountRow) (t : TransactionRow) :
    (mapAccount parse a).created_at = parse a.created_at ∧
    (mapTransaction parse t).timestamp = parse t.timestamp ∧
    (mapTransaction parse t).created_at = parse t.created_at ∧
    (t.notes = none → (mapTransaction parse t).notes = none) ∧
    (t.category = none → (mapTransaction parse t).category = none) ∧
    (t.related_transaction_id = none →
      (mapTransaction parse t).related_transaction_id = none) := by
  refine ⟨rfl, rfl, rfl, ?_, ?_, ?_⟩ <;>
    intro h <;>
    simp [mapTransaction, jsOrUndefinedStr, jsOrUndefinedInt, h]

/-- Witness for C8 at concrete wire rows. -/
theorem map_roundtrip_witness :
    (mapAccount sampleParse sampleAcctRow).created_at =
      sampleParse sampleAcctRow.created_at ∧
    (mapTransaction sampleParse sampleTxRow).timestamp =
      sampleParse sampleTxRow.timestamp ∧
    sampleTxRow.notes = none ∧
    (mapTransaction sampleParse sampleTxRow).notes = none :=
  ⟨(map_roundtrip sampleParse sampleAcctRow sampleTxRow).1,
   (map_roundtrip sampleParse sampleAcctRow sampleTxRow).2.1,
   rfl,
   (map_roundtrip sampleParse sampleAcctRow sampleTxRow).2.2.2.1 rfl⟩

/-- C9: with no authenticated user, the fetches return the state unchanged
for every remote outcome (so no remote call is consulted) and
`addTransaction` returns `false` with the state unchanged — a silent no-op;
the precondition applies to add only: `updateTransaction` and
`deleteTransaction` still run and report success without a user. -/
theorem no_user_precondition (parse : String → Int) (s : AppState)
    (hu : s.user = none) (ra : SelectResult AccountRow)
    (rt : SelectResult TransactionRow) (ins : MutationResult) :
    fetchAccounts parse s ra = s ∧
    fetchTransactions parse s rt = s ∧
    addTransaction parse s ins ra rt = (s, false) ∧
    (updateTransaction parse s MutationResult.ok ra rt).2 = true ∧
    (deleteTransaction parse s MutationResult.ok ra rt).2 = true := by
  unfold fetchAccounts fetchTransactions addTransaction updateTransaction deleteTransaction
  rw [hu]
  exact ⟨rfl, rfl, rfl, rfl, rfl⟩

/-- Witness for C9 at the store's initial (signed-out) state. -/
theorem no_user_precondition_witness :
    initialState.user = none ∧
    fetchAccounts sampleParse initialState SelectResult.err = initialState ∧
    addTransaction sampleParse initialState MutationResult.ok SelectResult.err
      SelectResult.err = (initialState, false) ∧
    (updateTransaction sampleParse initialState MutationResult.ok SelectResult.err
      SelectResult.err).2 = true :=
  ⟨rfl,
   (no_user_precondition sampleParse initialState rfl SelectResult.err SelectResult.err
     MutationResult.ok).1,
   (no_user_precondition sampleParse initialState rfl SelectResult.err SelectResult.err
     MutationResult.ok).2.2.1,
   (no_user_precondition sampleParse initialState rfl SelectResult.err SelectResult.err
     MutationResult.ok).2.2.2.1⟩

/-- C10: `mapTransaction` collapses falsy — not only null — optional wire
values to absent: empty-string notes or category, and a zero
`related_transaction_id`, all become absent in the local model. -/
theorem mapTransaction_falsy_absent (parse : String → Int) (t : TransactionRow) :
    (t.notes = some "" → (mapTransaction parse t).notes = none) ∧
    (t.category = some "" → (mapTransaction parse t).category = none) ∧
    (t.related_transaction_id = some 0 →
      (mapTransaction parse t).related_transaction_id = none) := by
  refine ⟨?_, ?_, ?_⟩ <;> intro h <;>
    simp [mapTransaction, jsOrUndefinedStr, jsOrUndefinedInt, h]

/-- Witness for C10 at a concrete row holding falsy non-null optional
values. -/
theorem mapTransaction_falsy_absent_witness :
    sampleFalsyRow.notes = some "" ∧
    (mapTransaction sampleParse sampleFalsyRow).notes = none ∧
    (mapTransaction sampleParse sampleFalsyRow).category = none ∧
    (mapTransaction sampleParse sampleFalsyRow).related_transaction_id = none :=
  ⟨rfl,
   (mapTransaction_falsy_absent sampleParse sampleFalsyRow).1 rfl,
   (mapTransaction_falsy_absent sampleParse sampleFalsyRow).2.1 rfl,
   (mapTransaction_falsy_absent sampleParse sampleFalsyRow).2.2 rfl⟩

end Flowly
